import Mathlib

/-!
Verification of the GrowthOS backend (Express + Firebase + Gemini glue).

The repository contains three revisions of the same backend:
  * src/backend/src/index.js                -- users keyed by users/uid
  * src/unnamed/part_000 (first revision)   -- users/uid, with intent routing
  * src/unnamed/part_000 (second revision)  -- users keyed by departments/dept/uid

Shallow embedding conventions:
  * Firebase JSON trees become association lists List (key x value);
    a path-scoped set is replace-or-append on the key.
  * JavaScript string helpers (toLowerCase, trim, includes) are embedded as
    executable functions on String via the underlying character list.
  * HTTP handlers become pure functions from request data and the relevant
    store state (and, for the AI handlers, the outcomes of the external
    completion call and of the insight append) to a response value.
-/

namespace GrowthOS

/-- Model of JavaScript String.prototype.toLowerCase restricted to ASCII case
mapping, which is all the keyword tests of detectIntent need. -/
def jsToLower (s : String) : String :=
  String.mk (s.toList.map Char.toLower)

/-- Model of JavaScript String.prototype.trim: drop leading and trailing
whitespace. -/
def jsTrim (s : String) : String :=
  String.mk (((s.toList.dropWhile Char.isWhitespace).reverse.dropWhile
    Char.isWhitespace).reverse)

/-- Containment of one character list inside another: the needle is a
contiguous run of the haystack. -/
def hasInfix (l sub : List Char) : Bool :=
  sub.isPrefixOf l ||
    match l with
    | [] => false
    | _ :: rest => hasInfix rest sub

/-- Model of JavaScript String.prototype.includes: substring containment. -/
def includes (s sub : String) : Bool :=
  hasInfix s.toList sub.toList

/-- Lookup in an association list modelling a Firebase subtree: first binding
of the key (Firebase keys are unique, so at most one binding exists). -/
def lookupKey {κ α : Type} [DecidableEq κ] : List (κ × α) → κ → Option α
  | [], _ => none
  | (k2, v) :: rest, k => if k2 = k then some v else lookupKey rest k

/-- Path-scoped set on a Firebase subtree: replace the binding when the key
exists, append a fresh binding otherwise. -/
def setPath {κ α : Type} [DecidableEq κ] : List (κ × α) → κ → α → List (κ × α)
  | [], k, v => [(k, v)]
  | (k2, v2) :: rest, k, v =>
    if k2 = k then (k2, v) :: rest else (k2, v2) :: setPath rest k v

/-- Intent Classifier, from detectIntent in src/unnamed/part_000 lines 76 to
89: lower-case the prompt and return the label of the first matching keyword
test, GENERAL when none matches. -/
def detectIntent (prompt : String) : String :=
  if includes (jsToLower prompt) "attendance" then "ATTENDANCE"
  else if includes (jsToLower prompt) "leave" then "LEAVE"
  else if includes (jsToLower prompt) "employee"
      || includes (jsToLower prompt) "staff" then "EMPLOYEE"
  else if includes (jsToLower prompt) "performance" then "PERFORMANCE"
  else if includes (jsToLower prompt) "sales"
      || includes (jsToLower prompt) "revenue" then "SALES"
  else if includes (jsToLower prompt) "project" then "PROJECT"
  else if includes (jsToLower prompt) "risk" then "RISK"
  else if includes (jsToLower prompt) "growth" then "GROWTH"
  else "GENERAL"

/-- Claim C1: detectIntent lower-cases the prompt and returns the label of the
first keyword set it contains in the fixed order attendance, leave,
employee/staff, performance, sales/revenue, project, risk, growth, and GENERAL
when none matches; in particular every prompt containing "attendance"
(case-insensitively) yields ATTENDANCE. -/
theorem detectIntent_first_match (p : String) :
    (includes (jsToLower p) "attendance" = true →
      detectIntent p = "ATTENDANCE") ∧
    (includes (jsToLower p) "attendance" = false →
      includes (jsToLower p) "leave" = true →
      detectIntent p = "LEAVE") ∧
    (includes (jsToLower p) "attendance" = false →
      includes (jsToLower p) "leave" = false →
      (includes (jsToLower p) "employee" || includes (jsToLower p) "staff")
        = true →
      detectIntent p = "EMPLOYEE") ∧
    (includes (jsToLower p) "attendance" = false →
      includes (jsToLower p) "leave" = false →
      (includes (jsToLower p) "employee" || includes (jsToLower p) "staff")
        = false →
      includes (jsToLower p) "performance" = true →
      detectIntent p = "PERFORMANCE") ∧
    (includes (jsToLower p) "attendance" = false →
      includes (jsToLower p) "leave" = false →
      (includes (jsToLower p) "employee" || includes (jsToLower p) "staff")
        = false →
      includes (jsToLower p) "performance" = false →
      (includes (jsToLower p) "sales" || includes (jsToLower p) "revenue")
        = true →
      detectIntent p = "SALES") ∧
    (includes (jsToLower p) "attendance" = false →
      includes (jsToLower p) "leave" = false →
      (includes (jsToLower p) "employee" || includes (jsToLower p) "staff")
        = false →
      includes (jsToLower p) "performance" = false →
      (includes (jsToLower p) "sales" || includes (jsToLower p) "revenue")
        = false →
      includes (jsToLower p) "project" = true →
      detectIntent p = "PROJECT") ∧
    (includes (jsToLower p) "attendance" = false →
      includes (jsToLower p) "leave" = false →
      (includes (jsToLower p) "employee" || includes (jsToLower p) "staff")
        = false →
      includes (jsToLower p) "performance" = false →
      (includes (jsToLower p) "sales" || includes (jsToLower p) "revenue")
        = false →
      includes (jsToLower p) "project" = false →
      includes (jsToLower p) "risk" = true →
      detectIntent p = "RISK") ∧
    (includes (jsToLower p) "attendance" = false →
      includes (jsToLower p) "leave" = false →
      (includes (jsToLower p) "employee" || includes (jsToLower p) "staff")
        = false →
      includes (jsToLower p) "performance" = false →
      (includes (jsToLower p) "sales" || includes (jsToLower p) "revenue")
        = false →
      includes (jsToLower p) "project" = false →
      includes (jsToLower p) "risk" = false →
      includes (jsToLower p) "growth" = true →
      detectIntent p = "GROWTH") ∧
    (includes (jsToLower p) "attendance" = false →
      includes (jsToLower p) "leave" = false →
      (includes (jsToLower p) "employee" || includes (jsToLower p) "staff")
        = false →
      includes (jsToLower p) "performance" = false →
      (includes (jsToLower p) "sales" || includes (jsToLower p) "revenue")
        = false →
      includes (jsToLower p) "project" = false →
      includes (jsToLower p) "risk" = false →
      includes (jsToLower p) "growth" = false →
      detectIntent p = "GENERAL") := by
  refine ⟨?_, ?_, ?_, ?_, ?_, ?_, ?_, ?_, ?_⟩ <;> intros <;>
    simp_all [detectIntent]

/-- Claim C1 witness: a concrete prompt containing Attendance (mixed case) is
classified as ATTENDANCE. -/
theorem detectIntent_first_match_witness :
    includes (jsToLower "Show Attendance and leave stats") "attendance" = true
      ∧ detectIntent "Show Attendance and leave stats" = "ATTENDANCE" :=
  ⟨by decide,
    (detectIntent_first_match "Show Attendance and leave stats").1 (by decide)⟩

/-- User record as written by the create-employee handler of the users/uid
revisions (src/unnamed/part_000 lines 137 to 147, src/backend/src/index.js
lines 103 to 113). -/
structure UserRec where
  fullName : String
  email : String
  dob : String
  skills : String
  role : String
  department : String
  status : String
  createdBy : String
  createdAt : Nat
  deriving DecidableEq

/-- Attendance record as written by the attendance mark handler
(src/unnamed/part_000 lines 509 to 514; the index.js revision writes the same
record without the status field). -/
structure AttendanceRecord where
  uid : String
  date : String
  status : String
  time : Nat
  deriving DecidableEq

/-- Leave node under leaves/id: a Firebase JSON object whose fields may be
absent, so every field is an Option.  The request handler writes uid, the two
dates, reason, status PENDING and createdAt; a path-scoped status write can
create a node holding only status. -/
structure LeaveNode where
  uid : Option String
  fromDate : Option String
  toDate : Option String
  reason : Option String
  status : Option String
  createdAt : Option Nat
  deriving DecidableEq

/-- Sales document from the document store; calculateMetrics reads only the
amount field, defaulting a missing amount to zero. -/
structure SaleRec where
  amount : Option Int
  deriving DecidableEq

/-- The aiConfig subtree, defaulted to autoRun false when absent. -/
structure AiConfig where
  autoRun : Bool
  deriving DecidableEq

/-- Aggregate returned by getCompanyData in src/unnamed/part_000 lines 29 to
52.  Performance, alert and project payloads are opaque to every claim, so
they are embedded as strings; the index.js revision has the same shape minus
aiConfig. -/
structure CompanyData where
  users : List (String × UserRec)
  attendance : List (String × List (String × AttendanceRecord))
  leaves : List (String × LeaveNode)
  alerts : List (String × String)
  aiConfig : AiConfig
  performance : List String
  sales : List SaleRec
  projects : List String
  deriving DecidableEq

/-- Metrics snapshot returned by calculateMetrics (src/unnamed/part_000 lines
55 to 73; index.js names the attendance count attendanceRecords). -/
structure Metrics where
  totalEmployees : Nat
  departmentWise : List (String × Nat)
  attendanceCount : Nat
  leaveRequests : Nat
  projects : Nat
  totalSales : Int
  deriving DecidableEq

/-- One step of building departmentWise: increment the counter stored under a
department key, starting it at one when the key is new.  This is the JS line
departmentWise[e.department] = (departmentWise[e.department] or 0) + 1. -/
def bumpDept : List (String × Nat) → String → List (String × Nat)
  | [], d => [(d, 1)]
  | (k, v) :: rest, d =>
    if k = d then (k, v + 1) :: rest else (k, v) :: bumpDept rest d

/-- Metrics Calculator of the users/uid revisions (src/unnamed/part_000 lines
55 to 73, src/backend/src/index.js lines 64 to 82). -/
def calculateMetrics (data : CompanyData) : Metrics :=
  let users := data.users.map Prod.snd
  let employees := users.filter (fun u => u.role == "EMPLOYEE")
  { totalEmployees := employees.length
    departmentWise := employees.foldl (fun m e => bumpDept m e.department) []
    attendanceCount := data.attendance.length
    leaveRequests := data.leaves.length
    projects := data.projects.length
    totalSales := data.sales.foldl (fun s x => s + x.amount.getD 0) 0 }

/-- User record stored under departments/dept/uid by the department
partitioned revision (src/unnamed/part_000 lines 389 to 398). -/
structure DeptUser where
  uid : String
  fullName : String
  email : String
  role : String
  accountType : String
  status : String
  createdAt : Nat
  createdBy : Option String
  deriving DecidableEq

/-- Metrics snapshot of the department partitioned revision
(src/unnamed/part_000 lines 322 to 333). -/
structure MetricsDept where
  totalEmployees : Nat
  departmentWise : List (String × Nat)
  deriving DecidableEq

/-- One step of the Object.entries fold in the department revision: add the
department size to the running total and store it under the department key. -/
def deptStep (acc : Nat × List (String × Nat))
    (entry : String × List (String × DeptUser)) : Nat × List (String × Nat) :=
  (acc.1 + entry.2.length, setPath acc.2 entry.1 entry.2.length)

/-- Metrics Calculator of the department partitioned revision
(src/unnamed/part_000 lines 322 to 333). -/
def calculateMetricsDept
    (departments : List (String × List (String × DeptUser))) : MetricsDept :=
  let r := departments.foldl deptStep (0, [])
  { totalEmployees := r.1, departmentWise := r.2 }

/-- Sum of the values of a counter map, the quantity the spec compares with
totalEmployees. -/
def sumVals : List (String × Nat) → Nat
  | [] => 0
  | kv :: rest => kv.2 + sumVals rest

theorem sumVals_bumpDept (m : List (String × Nat)) (d : String) :
    sumVals (bumpDept m d) = sumVals m + 1 := by
  induction m with
  | nil => rfl
  | cons kv rest ih =>
    obtain ⟨k, v⟩ := kv
    by_cases h : k = d <;> simp [bumpDept, h, sumVals, ih] <;> omega

theorem sumVals_foldl_bumpDept (es : List UserRec) (m : List (String × Nat)) :
    sumVals (es.foldl (fun m2 e => bumpDept m2 e.department) m)
      = sumVals m + es.length := by
  induction es generalizing m with
  | nil => simp
  | cons e rest ih =>
    simp only [List.foldl_cons, List.length_cons, ih, sumVals_bumpDept]
    omega

theorem setPath_notMem {α : Type} (m : List (String × α)) (k : String) (v : α)
    (h : k ∉ m.map Prod.fst) : setPath m k v = m ++ [(k, v)] := by
  induction m with
  | nil => rfl
  | cons kv rest ih =>
    obtain ⟨k2, v2⟩ := kv
    simp only [List.map_cons, List.mem_cons, not_or] at h
    have hne : k2 ≠ k := fun hh => h.1 hh.symm
    simp [setPath, hne, ih h.2]

theorem sumVals_append (m : List (String × Nat)) (k : String) (v : Nat) :
    sumVals (m ++ [(k, v)]) = sumVals m + v := by
  induction m with
  | nil => simp [sumVals]
  | cons kv rest ih =>
    show kv.2 + sumVals (rest ++ [(k, v)]) = kv.2 + sumVals rest + v
    rw [ih]
    omega

theorem deptFold_sum (ds : List (String × List (String × DeptUser)))
    (t : Nat) (m : List (String × Nat))
    (hd : (ds.map Prod.fst).Nodup)
    (hdisj : ∀ k, k ∈ ds.map Prod.fst → k ∉ m.map Prod.fst)
    (hm : sumVals m = t) :
    sumVals (ds.foldl deptStep (t, m)).2 = (ds.foldl deptStep (t, m)).1 := by
  induction ds generalizing t m with
  | nil => simpa using hm
  | cons entry rest ih =>
    obtain ⟨d, us⟩ := entry
    have hdm : d ∉ m.map Prod.fst := hdisj d (by simp)
    have hset : setPath m d us.length = m ++ [(d, us.length)] :=
      setPath_notMem m d us.length hdm
    have hd2 : d ∉ rest.map Prod.fst ∧ (rest.map Prod.fst).Nodup := by
      have hx := hd
      simp only [List.map_cons, List.nodup_cons] at hx
      exact hx
    simp only [List.foldl_cons, deptStep, hset]
    refine ih (t + us.length) (m ++ [(d, us.length)]) hd2.2 ?_ ?_
    · intro k hk
      simp only [List.map_append, List.map_cons, List.map_nil,
        List.mem_append, List.mem_singleton, not_or]
      exact ⟨hdisj k (by simp [hk]), fun hkd => hd2.1 (hkd ▸ hk)⟩
    · simp [sumVals_append, hm]

/-- Object with optional fields returned by the Relevance Selector: the JS
function returns objects with different field sets, embedded here as one
record whose absent fields are none. -/
structure PickedData where
  users : Option (List (String × UserRec))
  attendance : Option (List (String × List (String × AttendanceRecord)))
  leaves : Option (List (String × LeaveNode))
  alerts : Option (List (String × String))
  aiConfig : Option AiConfig
  performance : Option (List String)
  sales : Option (List SaleRec)
  projects : Option (List String)
  deriving DecidableEq

/-- The entire aggregate viewed as a PickedData with every field present, the
image of returning the data object itself. -/
def allData (data : CompanyData) : PickedData :=
  { users := some data.users
    attendance := some data.attendance
    leaves := some data.leaves
    alerts := some data.alerts
    aiConfig := some data.aiConfig
    performance := some data.performance
    sales := some data.sales
    projects := some data.projects }

/-- Relevance Selector, from pickRelevantData in src/unnamed/part_000 lines
92 to 119: a switch on the intent label; RISK, GROWTH and the default case
all return the aggregate itself. -/
def pickRelevantData (intent : String) (data : CompanyData) : PickedData :=
  if intent = "EMPLOYEE" then
    { users := some data.users, attendance := none, leaves := none,
      alerts := none, aiConfig := none, performance := none, sales := none,
      projects := none }
  else if intent = "ATTENDANCE" then
    { users := some data.users, attendance := some data.attendance,
      leaves := none, alerts := none, aiConfig := none, performance := none,
      sales := none, projects := none }
  else if intent = "LEAVE" then
    { users := some data.users, attendance := none,
      leaves := some data.leaves, alerts := none, aiConfig := none,
      performance := none, sales := none, projects := none }
  else if intent = "PERFORMANCE" then
    { users := none, attendance := none, leaves := none, alerts := none,
      aiConfig := none, performance := some data.performance, sales := none,
      projects := none }
  else if intent = "SALES" then
    { users := none, attendance := none, leaves := none, alerts := none,
      aiConfig := none, performance := none, sales := some data.sales,
      projects := none }
  else if intent = "PROJECT" then
    { users := none, attendance := none, leaves := none, alerts := none,
      aiConfig := none, performance := none, sales := none,
      projects := some data.projects }
  else if intent = "RISK" || intent = "GROWTH" then
    allData data
  else
    allData data

/-- Claim C3: in every revision the values of departmentWise sum exactly to
totalEmployees; in the users/uid revisions totalEmployees is the number of
user records whose role equals EMPLOYEE.  The department revision needs the
Firebase guarantee that sibling keys are distinct. -/
theorem calculateMetrics_departmentWise_sum (d : CompanyData)
    (ds : List (String × List (String × DeptUser)))
    (hds : (ds.map Prod.fst).Nodup) :
    sumVals (calculateMetrics d).departmentWise
        = (calculateMetrics d).totalEmployees ∧
    (calculateMetrics d).totalEmployees
        = ((d.users.map Prod.snd).filter (fun u => u.role == "EMPLOYEE")).length ∧
    sumVals (calculateMetricsDept ds).departmentWise
        = (calculateMetricsDept ds).totalEmployees := by
  refine ⟨?_, rfl, ?_⟩
  · simp [calculateMetrics, sumVals_foldl_bumpDept, sumVals]
  · show sumVals (ds.foldl deptStep (0, [])).2 = (ds.foldl deptStep (0, [])).1
    exact deptFold_sum ds 0 [] hds (by simp) rfl

/-- Sample user for witnesses. -/
def sampleUser (role department : String) : UserRec :=
  { fullName := "Ann Doe", email := "ann@x.com", dob := "1990-01-01",
    skills := "ts", role := role, department := department,
    status := "ACTIVE", createdBy := "H1", createdAt := 1 }

/-- Sample aggregate for witnesses: two employees across two departments and
one manager. -/
def sampleCompanyData : CompanyData :=
  { users := [("u1", sampleUser "EMPLOYEE" "Sales"),
              ("u2", sampleUser "EMPLOYEE" "Tech"),
              ("u3", sampleUser "MANAGER" "Sales")]
    attendance := []
    leaves := []
    alerts := []
    aiConfig := { autoRun := false }
    performance := []
    sales := [{ amount := some 10 }, { amount := none }]
    projects := ["p1"] }

/-- Sample department user for witnesses. -/
def sampleDeptUser (email accountType : String) : DeptUser :=
  { uid := "U1", fullName := "Ann Doe", email := email, role := "MANAGER",
    accountType := accountType, status := "ACTIVE", createdAt := 1,
    createdBy := none }

/-- Sample departments tree for witnesses. -/
def sampleDepts : List (String × List (String × DeptUser)) :=
  [("Sales", [("U1", sampleDeptUser "ann@x.com" "EMPLOYEE")]),
   ("HR Department", [("U2", sampleDeptUser "bob@x.com" "HR")])]

/-- Claim C3 witness: the sum property evaluated on concrete aggregates of
both revisions. -/
theorem calculateMetrics_departmentWise_sum_witness :
    sumVals (calculateMetrics sampleCompanyData).departmentWise
        = (calculateMetrics sampleCompanyData).totalEmployees ∧
    sumVals (calculateMetricsDept sampleDepts).departmentWise
        = (calculateMetricsDept sampleDepts).totalEmployees :=
  ⟨(calculateMetrics_departmentWise_sum sampleCompanyData sampleDepts
      (by decide)).1,
   (calculateMetrics_departmentWise_sum sampleCompanyData sampleDepts
      (by decide)).2.2⟩

/-- Claim C4: the Relevance Selector with intent EMPLOYEE keeps only the users
field, and with intents RISK, GROWTH and GENERAL returns the whole aggregate
unchanged. -/
theorem pickRelevantData_employee_and_full (d : CompanyData) :
    pickRelevantData "EMPLOYEE" d
        = { users := some d.users, attendance := none, leaves := none,
            alerts := none, aiConfig := none, performance := none,
            sales := none, projects := none } ∧
    pickRelevantData "RISK" d = allData d ∧
    pickRelevantData "GROWTH" d = allData d ∧
    pickRelevantData "GENERAL" d = allData d :=
  ⟨rfl, rfl, rfl, rfl⟩

/-- Response of the verify-login handler (src/unnamed/part_000 lines 414 to
497): an authorization flag plus the optional fields of the success and
failure JSON bodies. -/
structure LoginResult where
  authorized : Bool
  uid : Option String
  department : Option String
  role : Option String
  dashboard : Option String
  reason : Option String
  deriving DecidableEq

/-- Failure body of verify-login: authorized false plus a reason, all other
fields absent. -/
def failLogin (reason : String) : LoginResult :=
  { authorized := false, uid := none, department := none, role := none,
    dashboard := none, reason := some reason }

/-- The forEach scan of verify-login: iterate over the department children
and remember the last user whose email matches. -/
def findByEmail (users : List (String × DeptUser)) (email : String) :
    Option (String × DeptUser) :=
  users.foldl (fun acc kv => if kv.2.email = email then some kv else acc) none

/-- Verify-login handler of the department partitioned revision
(src/unnamed/part_000 lines 414 to 497): trim the three claimed fields,
reject when any is empty, look up the department subtree, scan it for the
email, then check role equality and ACTIVE status, and let the backend pick
the dashboard from the stored accountType. -/
def verifyLogin (departments : List (String × List (String × DeptUser)))
    (email department role : String) : LoginResult :=
  let email := jsTrim email
  let department := jsTrim department
  let role := jsTrim role
  if email = "" ∨ department = "" ∨ role = "" then
    failLogin "Missing login data"
  else
    match lookupKey departments department with
    | none => failLogin "Department not found"
    | some users =>
      match findByEmail users email with
      | none => failLogin "User not found in department"
      | some (fuid, fu) =>
        if fu.role ≠ role then failLogin "Role mismatch"
        else if fu.status ≠ "ACTIVE" then failLogin "User inactive"
        else
          { authorized := true, uid := some fuid,
            department := some department, role := some role,
            dashboard := some (if fu.accountType = "HR" then "/hr/dashboard"
              else "/employee/dashboard"),
            reason := none }

theorem foldl_findByEmail_none (e : String)
    (users : List (String × DeptUser)) :
    ∀ acc : Option (String × DeptUser), (∀ kv ∈ users, kv.2.email ≠ e) →
      users.foldl (fun acc kv => if kv.2.email = e then some kv else acc) acc
        = acc := by
  induction users with
  | nil => intro acc _; rfl
  | cons kv rest ih =>
    intro acc h
    simp only [List.foldl_cons]
    rw [if_neg (h kv (by simp))]
    exact ih acc fun kv2 hm => h kv2 (by simp [hm])

theorem findByEmail_eq_none (users : List (String × DeptUser)) (e : String)
    (h : ∀ kv ∈ users, kv.2.email ≠ e) : findByEmail users e = none :=
  foldl_findByEmail_none e users none h

/-- Claim C2 counterexample: when the claimed department subtree does not
exist the handler answers with reason Department not found, not with reason
User not found in department, so the claimed edge case fails. -/
theorem verifyLogin_missing_dept_counterexample :
    verifyLogin [] "ann@x.com" "Sales" "EMPLOYEE"
      = failLogin "Department not found" ∧
    failLogin "Department not found"
      ≠ failLogin "User not found in department" := by
  constructor
  · rfl
  · decide

/-- Claim C2 amended: for a request with nonempty trimmed fields whose
department subtree exists but holds no user with the given email, the handler
returns authorized false with reason User not found in department; when the
department subtree does not exist it instead returns reason Department not
found. -/
theorem verifyLogin_user_not_found
    (departments : List (String × List (String × DeptUser)))
    (email department role : String)
    (h1 : jsTrim email ≠ "") (h2 : jsTrim department ≠ "")
    (h3 : jsTrim role ≠ "")
    (users : List (String × DeptUser))
    (h4 : lookupKey departments (jsTrim department) = some users)
    (h5 : ∀ kv ∈ users, kv.2.email ≠ jsTrim email) :
    verifyLogin departments email department role
      = failLogin "User not found in department" ∧
    ∀ ds2 : List (String × List (String × DeptUser)),
      lookupKey ds2 (jsTrim department) = none →
      verifyLogin ds2 email department role
        = failLogin "Department not found" := by
  constructor
  · simp [verifyLogin, h1, h2, h3, h4,
      findByEmail_eq_none users (jsTrim email) h5]
  · intro ds2 hds2
    simp [verifyLogin, h1, h2, h3, hds2]

/-- Claim C2 witness: concrete instances of both amended branches. -/
theorem verifyLogin_user_not_found_witness :
    verifyLogin sampleDepts "zoe@x.com" "Sales" "MANAGER"
      = failLogin "User not found in department" ∧
    verifyLogin [] "zoe@x.com" "Sales" "MANAGER"
      = failLogin "Department not found" :=
  ⟨(verifyLogin_user_not_found sampleDepts "zoe@x.com" "Sales" "MANAGER"
      (by decide) (by decide) (by decide)
      [("U1", sampleDeptUser "ann@x.com" "EMPLOYEE")] (by rfl) (by decide)).1,
   (verifyLogin_user_not_found sampleDepts "zoe@x.com" "Sales" "MANAGER"
      (by decide) (by decide) (by decide)
      [("U1", sampleDeptUser "ann@x.com" "EMPLOYEE")] (by rfl) (by decide)).2
      [] (by rfl)⟩

/-- Request body of the create-employee handler of the department partitioned
revision (src/unnamed/part_000 lines 375 to 405). -/
structure CreateEmpBody where
  fullName : String
  email : String
  password : String
  department : String
  role : String
  createdBy : Option String
  deriving DecidableEq

/-- Create-employee handler of the department partitioned revision
(src/unnamed/part_000 lines 375 to 405): trim the department key, reject when
a required field is empty, and otherwise store the user record under the
department key with accountType HR exactly for the HR Department key.  The
identity provider uid and the clock are passed in as parameters. -/
def createEmployeeDept (body : CreateEmpBody) (uid : String) (now : Nat) :
    Except String (String × DeptUser) :=
  let department := jsTrim body.department
  if body.fullName = "" ∨ body.email = "" ∨ body.password = ""
      ∨ department = "" ∨ body.role = "" then
    Except.error "fullName, email, password, department & role are required"
  else
    Except.ok (department,
      { uid := uid, fullName := body.fullName, email := body.email,
        role := body.role,
        accountType := if department = "HR Department" then "HR"
          else "EMPLOYEE",
        status := "ACTIVE", createdAt := now, createdBy := body.createdBy })

/-- Empty Firebase JSON node under leaves/id. -/
def emptyLeaveNode : LeaveNode :=
  { uid := none, fromDate := none, toDate := none, reason := none,
    status := none, createdAt := none }

/-- Leave Action write (src/unnamed/part_000 lines 548 to 561,
src/backend/src/index.js lines 170 to 178): a path-scoped set of
leaves/leaveId/status, which creates a node holding only status when the id
is absent. -/
def setLeaveStatus : List (String × LeaveNode) → String → String →
    List (String × LeaveNode)
  | [], leaveId, status =>
    [(leaveId, { emptyLeaveNode with status := some status })]
  | (k, n) :: rest, leaveId, status =>
    if k = leaveId then (k, { n with status := some status }) :: rest
    else (k, n) :: setLeaveStatus rest leaveId status

theorem setLeaveStatus_other (leaves : List (String × LeaveNode))
    (leaveId status k2 : String) (hne : k2 ≠ leaveId) :
    lookupKey (setLeaveStatus leaves leaveId status) k2
      = lookupKey leaves k2 := by
  induction leaves with
  | nil => simp [setLeaveStatus, lookupKey, Ne.symm hne]
  | cons kv rest ih =>
    obtain ⟨k, n⟩ := kv
    by_cases h : k = leaveId
    · subst h
      simp [setLeaveStatus, lookupKey, Ne.symm hne]
    · simp [setLeaveStatus, lookupKey, h, ih]

/-- Claim C5: acting on an existing leave record rewrites only its status
field; uid, the two dates, reason and createdAt are untouched, and every
other leave record is unchanged. -/
theorem leaveAction_frame (leaves : List (String × LeaveNode))
    (leaveId status : String) (n : LeaveNode)
    (h : lookupKey leaves leaveId = some n) :
    lookupKey (setLeaveStatus leaves leaveId status) leaveId
      = some { n with status := some status } ∧
    ∀ k2, k2 ≠ leaveId →
      lookupKey (setLeaveStatus leaves leaveId status) k2
        = lookupKey leaves k2 := by
  refine ⟨?_, fun k2 hk2 => setLeaveStatus_other leaves leaveId status k2 hk2⟩
  induction leaves with
  | nil => simp [lookupKey] at h
  | cons kv rest ih =>
    obtain ⟨k, m⟩ := kv
    by_cases hk : k = leaveId
    · subst hk
      have hm : m = n := by
        have hx := h
        simp [lookupKey] at hx
        exact hx
      subst hm
      simp [setLeaveStatus, lookupKey]
    · simp only [lookupKey, if_neg hk] at h
      simp [setLeaveStatus, lookupKey, hk, ih h]

/-- Sample pending leave record for witnesses. -/
def pendingLeave (uid : String) : LeaveNode :=
  { uid := some uid, fromDate := some "2026-10-01",
    toDate := some "2026-10-03", reason := some "travel",
    status := some "PENDING", createdAt := some 1 }

/-- Claim C5 witness: approving leave L1 updates its status and leaves the
other fields and the record L2 unchanged. -/
theorem leaveAction_frame_witness :
    lookupKey (setLeaveStatus [("L1", pendingLeave "u1"),
        ("L2", pendingLeave "u2")] "L1" "APPROVED") "L1"
      = some { pendingLeave "u1" with status := some "APPROVED" } ∧
    lookupKey (setLeaveStatus [("L1", pendingLeave "u1"),
        ("L2", pendingLeave "u2")] "L1" "APPROVED") "L2"
      = lookupKey [("L1", pendingLeave "u1"), ("L2", pendingLeave "u2")] "L2" :=
  ⟨(leaveAction_frame [("L1", pendingLeave "u1"), ("L2", pendingLeave "u2")]
      "L1" "APPROVED" (pendingLeave "u1") (by rfl)).1,
   (leaveAction_frame [("L1", pendingLeave "u1"), ("L2", pendingLeave "u2")]
      "L1" "APPROVED" (pendingLeave "u1") (by rfl)).2 "L2" (by decide)⟩

theorem lookupKey_setPath_self {κ α : Type} [DecidableEq κ]
    (m : List (κ × α)) (k : κ) (v : α) :
    lookupKey (setPath m k v) k = some v := by
  induction m with
  | nil => simp [setPath, lookupKey]
  | cons kv rest ih =>
    obtain ⟨k2, v2⟩ := kv
    by_cases h : k2 = k <;> simp [setPath, lookupKey, h, ih]

theorem lookupKey_setPath_other {κ α : Type} [DecidableEq κ]
    (m : List (κ × α)) (k k2 : κ) (v : α) (hne : k2 ≠ k) :
    lookupKey (setPath m k v) k2 = lookupKey m k2 := by
  induction m with
  | nil => simp [setPath, lookupKey, Ne.symm hne]
  | cons kv rest ih =>
    obtain ⟨k3, v3⟩ := kv
    by_cases h : k3 = k
    · subst h
      simp [setPath, lookupKey, Ne.symm hne]
    · simp [setPath, lookupKey, h, ih]

/-- Attendance mark handler of the department partitioned revision
(src/unnamed/part_000 lines 500 to 520): reject an empty uid, then set the
node attendance/uid/date to a fresh record carrying the current time.  The
two-level path is embedded as a pair key. -/
def markAttendance (attendance : List ((String × String) × AttendanceRecord))
    (uid date : String) (now : Nat) :
    List ((String × String) × AttendanceRecord) :=
  if uid = "" then attendance
  else setPath attendance (uid, date)
    { uid := uid, date := date, status := "PRESENT", time := now }

/-- Claim C9 counterexample: a second mark call on the same day replaces the
record, changing its time field from 100 to 200, so the record is not
immutable after creation. -/
theorem markAttendance_overwrites_time :
    lookupKey (markAttendance [] "u1" "2026-10-12" 100) ("u1", "2026-10-12")
      = some { uid := "u1", date := "2026-10-12", status := "PRESENT",
               time := 100 } ∧
    lookupKey (markAttendance (markAttendance [] "u1" "2026-10-12" 100)
        "u1" "2026-10-12" 200) ("u1", "2026-10-12")
      = some { uid := "u1", date := "2026-10-12", status := "PRESENT",
               time := 200 } ∧
    (200 : Nat) ≠ 100 :=
  ⟨rfl, rfl, by decide⟩

/-- Claim C9 amended: marking attendance upserts the (uid, date) record,
overwriting any existing record for that day with a fresh PRESENT record
carrying the current call time, and leaves every other (uid, date) record
unchanged. -/
theorem markAttendance_upsert
    (attendance : List ((String × String) × AttendanceRecord))
    (uid date : String) (now : Nat) (h : uid ≠ "") :
    lookupKey (markAttendance attendance uid date now) (uid, date)
      = some { uid := uid, date := date, status := "PRESENT", time := now } ∧
    ∀ k2, k2 ≠ (uid, date) →
      lookupKey (markAttendance attendance uid date now) k2
        = lookupKey attendance k2 := by
  constructor
  · simp [markAttendance, h, lookupKey_setPath_self]
  · intro k2 hk2
    simp [markAttendance, h, lookupKey_setPath_other attendance _ k2 _ hk2]

/-- Claim C9 amended witness: the upsert behaviour on a concrete store. -/
theorem markAttendance_upsert_witness :
    lookupKey (markAttendance [(("u2", "2026-10-11"),
        { uid := "u2", date := "2026-10-11", status := "PRESENT", time := 7 })]
        "u1" "2026-10-12" 100) ("u1", "2026-10-12")
      = some { uid := "u1", date := "2026-10-12", status := "PRESENT",
               time := 100 } ∧
    lookupKey (markAttendance [(("u2", "2026-10-11"),
        { uid := "u2", date := "2026-10-11", status := "PRESENT", time := 7 })]
        "u1" "2026-10-12" 100) ("u2", "2026-10-11")
      = some { uid := "u2", date := "2026-10-11", status := "PRESENT",
               time := 7 } :=
  ⟨(markAttendance_upsert [(("u2", "2026-10-11"),
      { uid := "u2", date := "2026-10-11", status := "PRESENT", time := 7 })]
      "u1" "2026-10-12" 100 (by decide)).1,
   ((markAttendance_upsert [(("u2", "2026-10-11"),
      { uid := "u2", date := "2026-10-11", status := "PRESENT", time := 7 })]
      "u1" "2026-10-12" 100 (by decide)).2 ("u2", "2026-10-11")
      (by decide)).trans (by rfl)⟩

/-- HTTP response body: the JSON bodies the AI handlers produce, either a
reply field or an error field. -/
inductive RespBody where
  | reply (text : String)
  | error (message : String)
  deriving DecidableEq

/-- HTTP response: status code plus body. -/
structure HttpResponse where
  status : Nat
  body : RespBody
  deriving DecidableEq

/-- Control flow of the /ai/query handler of src/backend/src/index.js lines
184 to 236 (same shape in src/unnamed/part_000 lines 207 to 258),
parameterized by the outcomes of the two awaited external effects inside the
try block: the completion call and the aiInsights push.  Any raised error
reaches the catch block, which answers 500 with the raw error message. -/
def aiQuery (completionResult : Except String String)
    (appendResult : Except String Unit) : HttpResponse :=
  match completionResult with
  | Except.error e => { status := 500, body := RespBody.error e }
  | Except.ok reply =>
    match appendResult with
    | Except.error e => { status := 500, body := RespBody.error e }
    | Except.ok _ => { status := 200, body := RespBody.reply reply }

/-- Control flow of the /ai/query handler of the department partitioned
revision (src/unnamed/part_000 lines 336 to 372): reject an empty prompt with
400, and answer any raised error with the generic 500 reply AI failed.  This
revision performs no insight append. -/
def aiQueryDept (prompt : String) (completionResult : Except String String) :
    HttpResponse :=
  if prompt = "" then
    { status := 400, body := RespBody.reply "Prompt required" }
  else
    match completionResult with
    | Except.error _ => { status := 500, body := RespBody.reply "AI failed" }
    | Except.ok t => { status := 200, body := RespBody.reply t }

/-- Claim C6 counterexample: when the completion succeeds but the insight
append fails, the handler answers 500 with the append error and the reply is
not returned to the caller. -/
theorem aiQuery_append_failure_drops_reply :
    aiQuery (Except.ok "Hello") (Except.error "insight append failed")
      = { status := 500, body := RespBody.error "insight append failed" } ∧
    RespBody.error "insight append failed" ≠ RespBody.reply "Hello" :=
  ⟨rfl, by decide⟩

/-- Claim C6 amended: the insight append is awaited inside the try block, so
a failing append turns the whole request into a 500 error response; the reply
reaches the caller exactly when both the completion and the append succeed. -/
theorem aiQuery_append_semantics (r e : String) :
    aiQuery (Except.ok r) (Except.error e)
      = { status := 500, body := RespBody.error e } ∧
    aiQuery (Except.ok r) (Except.ok ())
      = { status := 200, body := RespBody.reply r } :=
  ⟨rfl, rfl⟩

/-- Claim C7 counterexample: the index.js revision surfaces the raw
completion error message in its 500 response instead of the generic AI failed
message. -/
theorem aiQuery_leaks_raw_error :
    aiQuery (Except.error "quota exceeded") (Except.ok ())
      = { status := 500, body := RespBody.error "quota exceeded" } ∧
    RespBody.error "quota exceeded" ≠ RespBody.reply "AI failed" :=
  ⟨rfl, by decide⟩

/-- Claim C7 amended: only the department partitioned revision maps every
completion failure to the generic 500 AI failed reply; the index.js revision
answers 500 carrying the raw underlying error message. -/
theorem aiQuery_failure_modes (p e : String) (h : p ≠ "") :
    aiQueryDept p (Except.error e)
      = { status := 500, body := RespBody.reply "AI failed" } ∧
    aiQuery (Except.error e) (Except.ok ())
      = { status := 500, body := RespBody.error e } := by
  constructor
  · simp [aiQueryDept, h]
  · rfl

/-- Claim C7 witness: a concrete nonempty prompt and completion failure. -/
theorem aiQuery_failure_modes_witness :
    aiQueryDept "attrition risk" (Except.error "rate limited")
      = { status := 500, body := RespBody.reply "AI failed" } ∧
    aiQuery (Except.error "rate limited") (Except.ok ())
      = { status := 500, body := RespBody.error "rate limited" } :=
  aiQuery_failure_modes "attrition risk" "rate limited" (by decide)

/-- Request body of /ai/query as sent by the frontend chat component
(src/frontend/src/components/FloatingAIChat.tsx lines 33 to 41): the prompt
plus a mode field. -/
structure AiQueryBody where
  prompt : String
  mode : Option String
  deriving DecidableEq

/-- Composed completion request of the index.js /ai/query handler (lines 184
to 221), embedded as the ordered parts the template string interpolates after
the fixed preamble: the serialized metrics, the serialized company data and
the user question.  The handler destructures only prompt from the request
body; no revision reads the mode field. -/
structure ComposedPrompt where
  metrics : Option Metrics
  companyData : Option CompanyData
  question : String
  deriving DecidableEq

/-- Prompt Composer of the index.js /ai/query handler: metrics and company
data are always included and the mode field of the body is ignored. -/
def composeQuery (body : AiQueryBody) (data : CompanyData) : ComposedPrompt :=
  { metrics := some (calculateMetrics data)
    companyData := some data
    question := body.prompt }

/-- Claim C8 counterexample: with mode GEMI the composed request still
contains the company data, and it is identical to the composed request with
mode BOTH, so the handler behaviour does not depend on the mode field. -/
theorem composeQuery_mode_counterexample :
    composeQuery { prompt := "hi", mode := some "GEMI" } sampleCompanyData
      = composeQuery { prompt := "hi", mode := some "BOTH" }
          sampleCompanyData ∧
    (composeQuery { prompt := "hi", mode := some "GEMI" }
        sampleCompanyData).companyData
      = some sampleCompanyData ∧
    some sampleCompanyData ≠ (none : Option CompanyData) :=
  ⟨rfl, rfl, by decide⟩

/-- Claim C8 amended: the backend handler ignores the mode field entirely;
the composed completion request always embeds the metrics and the full
company data, for mode GEMI just as for BOTH or JARVIS, and only the frontend
attaches mode to the request. -/
theorem composeQuery_ignores_mode (prompt : String) (m1 m2 : Option String)
    (data : CompanyData) :
    composeQuery { prompt := prompt, mode := m1 } data
      = composeQuery { prompt := prompt, mode := m2 } data ∧
    (composeQuery { prompt := prompt, mode := m1 } data).companyData
      = some data ∧
    (composeQuery { prompt := prompt, mode := m1 } data).metrics
      = some (calculateMetrics data) :=
  ⟨rfl, rfl, rfl⟩

/-- Claim C10: the stored accountType is HR exactly when the trimmed
department equals HR Department and EMPLOYEE otherwise, independent of the
submitted role, and verify-login routes to the HR dashboard exactly when the
stored accountType is HR. -/
theorem createEmployee_accountType_dashboard
    (body : CreateEmpBody) (uid : String) (now : Nat)
    (dept : String) (rec : DeptUser)
    (hok : createEmployeeDept body uid now = Except.ok (dept, rec))
    (departments : List (String × List (String × DeptUser)))
    (email department role : String)
    (users : List (String × DeptUser)) (fuid : String) (fu : DeptUser)
    (h1 : jsTrim email ≠ "") (h2 : jsTrim department ≠ "")
    (h3 : jsTrim role ≠ "")
    (h4 : lookupKey departments (jsTrim department) = some users)
    (h5 : findByEmail users (jsTrim email) = some (fuid, fu))
    (h6 : fu.role = jsTrim role) (h7 : fu.status = "ACTIVE") :
    (rec.accountType = "HR" ↔ jsTrim body.department = "HR Department") ∧
    (jsTrim body.department ≠ "HR Department" →
      rec.accountType = "EMPLOYEE") ∧
    (∀ r2 : String, r2 ≠ "" →
      (createEmployeeDept { body with role := r2 } uid now).map
          (fun x => x.2.accountType)
        = Except.ok rec.accountType) ∧
    verifyLogin departments email department role
      = { authorized := true, uid := some fuid,
          department := some (jsTrim department),
          role := some (jsTrim role),
          dashboard := some (if fu.accountType = "HR" then "/hr/dashboard"
            else "/employee/dashboard"),
          reason := none } ∧
    ((verifyLogin departments email department role).dashboard
        = some "/hr/dashboard" ↔ fu.accountType = "HR") := by
  have hvalid : ¬(body.fullName = "" ∨ body.email = "" ∨ body.password = ""
      ∨ jsTrim body.department = "" ∨ body.role = "") := by
    intro hcond
    simp [createEmployeeDept, hcond] at hok
  have hrec : jsTrim body.department = dept ∧
      ({ uid := uid, fullName := body.fullName, email := body.email,
         role := body.role,
         accountType := if jsTrim body.department = "HR Department" then "HR"
           else "EMPLOYEE",
         status := "ACTIVE", createdAt := now,
         createdBy := body.createdBy } : DeptUser) = rec := by
    simpa [createEmployeeDept, hvalid] using hok
  have hacct : rec.accountType
      = if jsTrim body.department = "HR Department" then "HR"
        else "EMPLOYEE" := by
    rw [← hrec.2]
  have hlogin : verifyLogin departments email department role
      = { authorized := true, uid := some fuid,
          department := some (jsTrim department),
          role := some (jsTrim role),
          dashboard := some (if fu.accountType = "HR" then "/hr/dashboard"
            else "/employee/dashboard"),
          reason := none } := by
    simp [verifyLogin, h1, h2, h3, h4, h5, h6, h7]
  refine ⟨?_, ?_, ?_, hlogin, ?_⟩
  · rw [hacct]
    by_cases hc : jsTrim body.department = "HR Department"
    · simp [hc]
    · simp only [hc, if_false, iff_false]
      exact fun hx => absurd hx (by decide)
  · intro hc
    rw [hacct, if_neg hc]
  · intro r2 hr2
    have hvalid2 : ¬(body.fullName = "" ∨ body.email = ""
        ∨ body.password = "" ∨ jsTrim body.department = "" ∨ r2 = "") := by
      intro hcond
      rcases hcond with hx | hx | hx | hx | hx
      · exact hvalid (Or.inl hx)
      · exact hvalid (Or.inr (Or.inl hx))
      · exact hvalid (Or.inr (Or.inr (Or.inl hx)))
      · exact hvalid (Or.inr (Or.inr (Or.inr (Or.inl hx))))
      · exact hr2 hx
    simp [createEmployeeDept, hvalid2, hacct, Except.map]
  · rw [hlogin]
    by_cases hfu : fu.accountType = "HR"
    · simp [hfu]
    · simp only [hfu, if_false, iff_false]
      exact fun hx => absurd (Option.some.inj hx) (by decide)

/-- Concrete create request targeting the HR Department (with surrounding
spaces to exercise the trim) for the C10 witness. -/
def hrBody : CreateEmpBody :=
  { fullName := "Ann Doe", email := "ann@x.com", password := "pw",
    department := " HR Department ", role := "MANAGER", createdBy := none }

/-- Record that createEmployeeDept stores for hrBody. -/
def hrRec : DeptUser :=
  { uid := "U2", fullName := "Ann Doe", email := "ann@x.com",
    role := "MANAGER", accountType := "HR", status := "ACTIVE",
    createdAt := 1, createdBy := none }

/-- Departments tree holding the stored HR record, for the verify-login part
of the C10 witness. -/
def hrDepts : List (String × List (String × DeptUser)) :=
  [("HR Department", [("U2", hrRec)])]

/-- Concrete create request targeting a non-HR department for the C10
witness. -/
def salesBody : CreateEmpBody :=
  { fullName := "Ann Doe", email := "ann@x.com", password := "pw",
    department := "Sales", role := "MANAGER", createdBy := none }

/-- Record that createEmployeeDept stores for salesBody. -/
def salesRec : DeptUser :=
  { uid := "U2", fullName := "Ann Doe", email := "ann@x.com",
    role := "MANAGER", accountType := "EMPLOYEE", status := "ACTIVE",
    createdAt := 1, createdBy := none }

/-- Claim C10 witness: creating Ann in the HR Department (with spaces to be
trimmed) stores accountType HR and her verify-login routes to the HR
dashboard, while creating her in the Sales department stores accountType
EMPLOYEE. -/
theorem createEmployee_accountType_dashboard_witness :
    (hrRec.accountType = "HR" ↔ jsTrim " HR Department " = "HR Department") ∧
    ((verifyLogin hrDepts "ann@x.com" "HR Department" "MANAGER").dashboard
        = some "/hr/dashboard" ↔ hrRec.accountType = "HR") ∧
    salesRec.accountType = "EMPLOYEE" :=
  ⟨(createEmployee_accountType_dashboard hrBody "U2" 1 "HR Department" hrRec
      (by rfl) hrDepts "ann@x.com" "HR Department" "MANAGER" [("U2", hrRec)]
      "U2" hrRec (by decide) (by decide) (by decide) (by rfl) (by rfl)
      (by rfl) (by rfl)).1,
   (createEmployee_accountType_dashboard hrBody "U2" 1 "HR Department" hrRec
      (by rfl) hrDepts "ann@x.com" "HR Department" "MANAGER" [("U2", hrRec)]
      "U2" hrRec (by decide) (by decide) (by decide) (by rfl) (by rfl)
      (by rfl) (by rfl)).2.2.2.2,
   (createEmployee_accountType_dashboard salesBody "U2" 1 "Sales" salesRec
      (by rfl) [("Sales", [("U2", salesRec)])] "ann@x.com" "Sales" "MANAGER"
      [("U2", salesRec)] "U2" salesRec (by decide) (by decide) (by decide)
      (by rfl) (by rfl) (by rfl) (by rfl)).2.1 (by decide)⟩

end GrowthOS
